import Mathlib

/-!
Shallow embedding of the Crypto_bot scanning core: the indicator engine of
`src/main.py` (`calculate_indicators`), the market-structure analyzer and
confluence scorer of `src/signal_detector.py` (`SignalDetector`), and the
dedupe ledger of `src/main.py` (`scan_market`).

Modelling conventions, used throughout:
* Python floats are idealised as exact rationals `ℚ`; the cosmetic
  `round(x, 8)` / `round(x, 2)` display rounding and the wall-clock
  `timestamp` string of a signal dict are omitted.
* A pandas cell that is NaN, or a column that was never attached, is an
  `Option` that is `none`; reading a key a row does not carry (Python
  `KeyError`, also pandas `iloc[-1]` on an empty frame, `IndexError`) is an
  `Except.error` naming the key.
* The local accumulators `score` and `reasons` of `_check_long_setup` /
  `_check_short_setup` are exposed in the result (`EvalOutcome`), so that the
  state at every `return None` is observable; each `reasons.append` site of
  the source is one constructor of `Reason`, with the interpolated numbers
  kept as payloads and the literal French message text dropped.
-/

set_option allowUnsafeReducibility true in
attribute [semireducible] Rat.add Rat.mul Rat.inv Rat.sub Rat.ofScientific

/-- One row of an enriched 4h/1d dataframe as the scorer reads it: the raw
OHLCV fields plus the indicator columns attached by `calculate_indicators`
(`rsi`, `ema_200`, `bb_middle` are attached there, hence plain fields), and
the two distance columns the scorer reads but `calculate_indicators` never
attaches (hence `Option`: `none` models the absent key). -/
structure Candle where
  open_ : ℚ
  high : ℚ
  low : ℚ
  close : ℚ
  volume : ℚ
  rsi : ℚ
  ema_200 : ℚ
  bb_middle : ℚ
  dist_bb_lower : Option ℚ
  dist_bb_upper : Option ℚ
deriving DecidableEq, Repr

/-- `series.tail(n)` of pandas: the trailing `n` entries. -/
def tailN (n : ℕ) (l : List α) : List α := l.drop (l.length - n)

/-- Consecutive pairs `(l[i-1], l[i])`, as the per-candle change loops build. -/
def pairsOf : List ℚ → List (ℚ × ℚ)
  | a :: b :: rest => (a, b) :: pairsOf (b :: rest)
  | _ => []

/-- Consecutive triples `(l[i-2], l[i-1], l[i])`, as the pivot-count loop of
`_calculate_market_structure` walks `range(2, len)`. -/
def triplesOf : List ℚ → List (ℚ × ℚ × ℚ)
  | a :: b :: c :: rest => (a, b, c) :: triplesOf (b :: c :: rest)
  | _ => []

/-! ## Indicator Engine (src/main.py, calculate_indicators) -/

/-- `df['close'].diff()` at index `i`: NaN (`none`) at index 0 and out of
range, else `close[i] - close[i-1]`. -/
def delta (closes : List ℚ) (i : ℕ) : Option ℚ :=
  if i = 0 ∨ closes.length ≤ i then none
  else some (closes.getD i 0 - closes.getD (i - 1) 0)

/-- `delta.where(delta > 0, 0)` at index `i`: pandas `where` replaces every
entry whose condition is false by 0, and `NaN > 0` is false, so the leading
NaN becomes 0 as well. -/
def gain (closes : List ℚ) (i : ℕ) : ℚ :=
  match delta closes i with
  | none => 0
  | some d => if d > 0 then d else 0

/-- `-delta.where(delta < 0, 0)` at index `i` (the clamped loss series). -/
def loss (closes : List ℚ) (i : ℕ) : ℚ :=
  match delta closes i with
  | none => 0
  | some d => if d < 0 then -d else 0

/-- `gain.rolling(window=14).mean()` at index `i`: defined once 14
observations exist (index ≥ 13, within range), else NaN. -/
def avg_gain (closes : List ℚ) (i : ℕ) : Option ℚ :=
  if 13 ≤ i ∧ i < closes.length then
    some ((((List.range 14).map (fun k => gain closes (i - k))).sum) / 14)
  else none

/-- `loss.rolling(window=14).mean()` at index `i`. -/
def avg_loss (closes : List ℚ) (i : ℕ) : Option ℚ :=
  if 13 ≤ i ∧ i < closes.length then
    some ((((List.range 14).map (fun k => loss closes (i - k))).sum) / 14)
  else none

/-- `rsi = 100 - (100 / (1 + gain/loss))` at index `i`, with IEEE float
semantics made explicit: `avg_loss = 0 < avg_gain` gives `rs = +inf` and
`rsi = 100`; `avg_gain = avg_loss = 0` gives `rs = NaN` and `rsi = NaN`
(`none`); a NaN input propagates. -/
def rsiAt (closes : List ℚ) (i : ℕ) : Option ℚ :=
  match avg_gain closes i, avg_loss closes i with
  | some g, some l =>
    if l = 0 then (if g = 0 then none else some 100)
    else some (100 - 100 / (1 + g / l))
  | _, _ => none

/-- `df['close'].ewm(span, adjust=False).mean()` from a seed `prev`:
`y_t = α x_t + (1 - α) y_(t-1)`. -/
def ewmFrom (alpha : ℚ) (prev : ℚ) : List ℚ → List ℚ
  | [] => []
  | x :: rest =>
    let e := alpha * x + (1 - alpha) * prev
    e :: ewmFrom alpha e rest

/-- `df['close'].ewm(span=span, adjust=False).mean()`: seeded from the first
observed close, `α = 2/(span+1)`; a value stands at every index of a
nonempty series, however short. -/
def ewm (span : ℕ) (closes : List ℚ) : List ℚ :=
  match closes with
  | [] => []
  | c :: rest => c :: ewmFrom (2 / (span + 1)) c rest

/-- The `ema_200` cell of a series' latest row, as `calculate_indicators`
attaches it (`none` only for an empty series, where no row exists). -/
def ema200At (closes : List ℚ) : Option ℚ := (ewm 200 closes).getLast?

/-! ## Market Structure Analyzer (src/signal_detector.py) -/

/-- Higher-high count of the loop in `_calculate_market_structure`:
`highs[i] > highs[i-1] and highs[i-1] > highs[i-2]`. -/
def higherCount (vals : List ℚ) : ℕ :=
  (triplesOf vals).countP (fun t => decide (t.2.1 < t.2.2 ∧ t.1 < t.2.1))

/-- Lower-high count: `highs[i] < highs[i-1] and highs[i-1] < highs[i-2]`. -/
def lowerCount (vals : List ℚ) : ℕ :=
  (triplesOf vals).countP (fun t => decide (t.2.2 < t.2.1 ∧ t.2.1 < t.1))

/-- `_calculate_market_structure(df, lookback)`: pivot counting over the
trailing `lookback` highs and lows ("uptrend" / "downtrend" / "range").
The source also slices the closes but never uses them. -/
def calculate_market_structure (df : List Candle) (lookback : ℕ) : String :=
  let highs := tailN lookback (df.map Candle.high)
  let lows := tailN lookback (df.map Candle.low)
  let higher_highs := higherCount highs
  let lower_highs := lowerCount highs
  let higher_lows := higherCount lows
  let lower_lows := lowerCount lows
  if higher_highs > lower_highs ∧ higher_lows > lower_lows then "uptrend"
  else if lower_highs > higher_highs ∧ lower_lows > higher_lows then "downtrend"
  else "range"

/-- Low-pivot indices of `_check_rsi_divergence`: `i ∈ range(2, len-2)` with
`closes[i]` strictly below both two neighbours on each side. -/
def pivotLows (closes : List ℚ) : List ℕ :=
  (List.range closes.length).filter (fun i =>
    decide (2 ≤ i ∧ i + 2 < closes.length ∧
      closes.getD i 0 < closes.getD (i - 1) 0 ∧
      closes.getD i 0 < closes.getD (i - 2) 0 ∧
      closes.getD i 0 < closes.getD (i + 1) 0 ∧
      closes.getD i 0 < closes.getD (i + 2) 0))

/-- High-pivot indices, the mirror of `pivotLows`. -/
def pivotHighs (closes : List ℚ) : List ℕ :=
  (List.range closes.length).filter (fun i =>
    decide (2 ≤ i ∧ i + 2 < closes.length ∧
      closes.getD (i - 1) 0 < closes.getD i 0 ∧
      closes.getD (i - 2) 0 < closes.getD i 0 ∧
      closes.getD (i + 1) 0 < closes.getD i 0 ∧
      closes.getD (i + 2) 0 < closes.getD i 0))

/-- `_check_rsi_divergence(df, divergence_type, lookback)`: over the trailing
`lookback` rows, fewer than 10 records give `False`; otherwise the last two
price pivots must disagree with RSI (lower low with higher RSI for
"bullish", higher high with lower RSI for "bearish"). -/
def check_rsi_divergence (df : List Candle) (divergence_type : String)
    (lookback : ℕ) : Bool :=
  let closes := tailN lookback (df.map Candle.close)
  let rsi_values := tailN lookback (df.map Candle.rsi)
  if closes.length < 10 then false
  else if divergence_type = "bullish" then
    let price_lows_idx := pivotLows closes
    if 2 ≤ price_lows_idx.length then
      let idx1 := price_lows_idx.getD (price_lows_idx.length - 2) 0
      let idx2 := price_lows_idx.getD (price_lows_idx.length - 1) 0
      decide (closes.getD idx2 0 < closes.getD idx1 0 ∧
        rsi_values.getD idx1 0 < rsi_values.getD idx2 0)
    else false
  else if divergence_type = "bearish" then
    let price_highs_idx := pivotHighs closes
    if 2 ≤ price_highs_idx.length then
      let idx1 := price_highs_idx.getD (price_highs_idx.length - 2) 0
      let idx2 := price_highs_idx.getD (price_highs_idx.length - 1) 0
      decide (closes.getD idx1 0 < closes.getD idx2 0 ∧
        rsi_values.getD idx2 0 < rsi_values.getD idx1 0)
    else false
  else false

/-- `_calculate_directional_volume(df, lookback)`: green volume over
green+red volume in the trailing window; 0 when that total is 0. -/
def calculate_directional_volume (df : List Candle) (lookback : ℕ) : ℚ :=
  let recent := tailN lookback df
  let volume_up := ((recent.filter (fun c => decide (c.open_ < c.close))).map
    Candle.volume).sum
  let volume_down := ((recent.filter (fun c => decide (c.close < c.open_))).map
    Candle.volume).sum
  let total_volume := volume_up + volume_down
  if total_volume = 0 then 0 else volume_up / total_volume

/-- `_check_rejection_wick(candle, direction)`: the wick must exceed both
twice the body and half the full range; a zero-range candle never
qualifies. -/
def check_rejection_wick (candle : Candle) (direction : String) : Bool :=
  let body_size := |candle.close - candle.open_|
  let total_range := candle.high - candle.low
  if total_range = 0 then false
  else if direction = "bullish" then
    let lower_wick := min candle.open_ candle.close - candle.low
    decide (2 * body_size < lower_wick ∧ total_range / 2 < lower_wick)
  else if direction = "bearish" then
    let upper_wick := candle.high - max candle.open_ candle.close
    decide (2 * body_size < upper_wick ∧ total_range / 2 < upper_wick)
  else false

/-- Mean consecutive percentage change of a close window, times 100:
`np.mean(drops) * 100` over `(c[i] - c[i-1]) / c[i-1]`. -/
def avgChange (closes : List ℚ) : ℚ :=
  let drops := (pairsOf closes).map (fun p => (p.2 - p.1) / p.1)
  drops.sum / (drops.length : ℚ) * 100

/-! ## Signal Scorer (src/signal_detector.py, SignalDetector) -/

/-- Thresholds set in `SignalDetector.__init__`. -/
def rsi_oversold : ℚ := 30

/-- `self.rsi_overbought`. -/
def rsi_overbought : ℚ := 70

/-- `self.bb_threshold` (percent distance to a Bollinger band). -/
def bb_threshold : ℚ := 2

/-- `self.min_score_long`. -/
def min_score_long : ℤ := 8

/-- `self.min_score_short`. -/
def min_score_short : ℤ := 8

/-- Trade direction, the `'type'` key of an emitted signal dict. -/
inductive Direction where
  | LONG
  | SHORT
deriving DecidableEq, Repr

/-- One `reasons.append(...)` site of `_check_long_setup` or
`_check_short_setup`; the interpolated number of the message is the
payload, the literal text is dropped. -/
inductive Reason where
  | rejBelowEma (pct : ℚ)
  | warnBelowEma (pct : ℚ)
  | aboveEma200
  | rejDowntrend
  | structUpLong
  | structRangeLong
  | rsiVeryOversold (r : ℚ)
  | rsiOversold (r : ℚ)
  | divBullish
  | volBearishDominant (v : ℚ)
  | volSlightlyBearish (v : ℚ)
  | volBalancedGreen (v : ℚ)
  | wickBullish
  | nearBBLower (d : ℚ)
  | rsi1dOversold (r : ℚ)
  | macro1dUp
  | macro1dDown
  | rejFallingKnife (a : ℚ)
  | moderateDrop (a : ℚ)
  | lowScoreLong (s : ℤ)
  | lowRRLong (rr : ℚ)
  | rejAboveEma (pct : ℚ)
  | warnAboveEma (pct : ℚ)
  | belowEma200
  | rejUptrend
  | structDownShort
  | structRangeShort
  | rsiVeryOverbought (r : ℚ)
  | rsiOverbought (r : ℚ)
  | divBearish
  | volBullishDominant (v : ℚ)
  | volSlightlyBullish (v : ℚ)
  | volBalancedRed (v : ℚ)
  | wickBearish
  | nearBBUpper (d : ℚ)
  | rsi1dOverbought (r : ℚ)
  | macro1dDownShort
  | macro1dUpShort
  | rejViolentRally (a : ℚ)
  | moderateGain (a : ℚ)
  | lowScoreShort (s : ℤ)
  | lowRRShort (rr : ℚ)
deriving DecidableEq, Repr

/-- The signal dict returned on acceptance (`timestamp` and the display
rounding omitted, see the file comment). -/
structure Signal where
  type : Direction
  symbol : String
  timeframe : String
  score : ℤ
  entry_price : ℚ
  stop_loss : ℚ
  take_profit : ℚ
  risk_reward : ℚ
  reasons : List Reason
  rsi_4h : ℚ
  rsi_1h : Option ℚ
  rsi_1d : Option ℚ
  market_structure : String
deriving DecidableEq, Repr

/-- Result of one `_check_long_setup` / `_check_short_setup` run with the
local accumulators exposed: the returned value (`none` = Python `None`)
plus the `score` and `reasons` locals at the return statement. -/
structure EvalOutcome where
  result : Option Signal
  score : ℤ
  reasons : List Reason
deriving DecidableEq, Repr

/-- LONG filters #10-#12: minimum-score gate, trade-plan construction
(entry, −3% stop, `min(bb_middle, +6%)` target), and the R/R ≥ 1.5 gate. -/
def longFinish (symbol : String) (latest_4h : Candle)
    (latest_1h latest_1d : Option Candle) (ms : String)
    (score : ℤ) (reasons : List Reason) : EvalOutcome :=
  if score < min_score_long then
    ⟨none, score, reasons ++ [Reason.lowScoreLong score]⟩
  else
    let entry_price := latest_4h.close
    let stop_loss := entry_price * (97 / 100)
    let bb_middle := latest_4h.bb_middle
    let take_profit := min bb_middle (entry_price * (106 / 100))
    let risk_reward := (take_profit - entry_price) / (entry_price - stop_loss)
    if risk_reward < 3 / 2 then
      ⟨none, score, reasons ++ [Reason.lowRRLong risk_reward]⟩
    else
      ⟨some { type := Direction.LONG, symbol := symbol, timeframe := "4h",
              score := score, entry_price := entry_price,
              stop_loss := stop_loss, take_profit := take_profit,
              risk_reward := risk_reward, reasons := reasons,
              rsi_4h := latest_4h.rsi, rsi_1h := latest_1h.map Candle.rsi,
              rsi_1d := latest_1d.map Candle.rsi, market_structure := ms },
       score, reasons⟩

/-- LONG filter #9: falling-knife guard over the trailing 5 closes (skipped
when fewer than 5 rows exist). -/
def longKnife (symbol : String) (latest_4h : Candle)
    (latest_1h latest_1d : Option Candle) (ms : String) (df_4h : List Candle)
    (score : ℤ) (reasons : List Reason) : EvalOutcome :=
  if 5 ≤ df_4h.length then
    let avg_drop := avgChange (tailN 5 (df_4h.map Candle.close))
    if avg_drop < -2 then
      ⟨none, score, reasons ++ [Reason.rejFallingKnife avg_drop]⟩
    else if avg_drop < -1 then
      longFinish symbol latest_4h latest_1h latest_1d ms (score - 1)
        (reasons ++ [Reason.moderateDrop avg_drop])
    else longFinish symbol latest_4h latest_1h latest_1d ms score reasons
  else longFinish symbol latest_4h latest_1h latest_1d ms score reasons

/-- LONG filters #4-#8: divergence, directional volume, rejection wick,
Bollinger-lower distance (a missing `dist_bb_lower` key raises), daily
confirmation; then the tail of the pipeline. -/
def longStage4 (symbol : String) (latest_4h : Candle)
    (latest_1h latest_1d : Option Candle) (df_4h : List Candle)
    (df_1d : Option (List Candle)) (ms : String)
    (score : ℤ) (reasons : List Reason) : Except String EvalOutcome :=
  let p4 := if check_rsi_divergence df_4h "bullish" 20 then
      (score + 3, reasons ++ [Reason.divBullish]) else (score, reasons)
  let vol_ratio := calculate_directional_volume df_4h 10
  let p5 := if vol_ratio < 3 / 10 then
      (p4.1 - 2, p4.2 ++ [Reason.volBearishDominant vol_ratio])
    else if vol_ratio < 2 / 5 then
      (p4.1, p4.2 ++ [Reason.volSlightlyBearish vol_ratio])
    else (p4.1 + 1, p4.2 ++ [Reason.volBalancedGreen vol_ratio])
  let p6 := if check_rejection_wick latest_4h "bullish" then
      (p5.1 + 2, p5.2 ++ [Reason.wickBullish]) else p5
  match latest_4h.dist_bb_lower with
  | none => Except.error "dist_bb_lower"
  | some dist_bb_lower =>
    let p7 := if dist_bb_lower < bb_threshold then
        (p6.1 + 2, p6.2 ++ [Reason.nearBBLower dist_bb_lower]) else p6
    let p8 := match latest_1d, df_1d with
      | some l1d, some _ =>
        let pa := if l1d.rsi < 35 then
            (p7.1 + 2, p7.2 ++ [Reason.rsi1dOversold l1d.rsi]) else p7
        if l1d.ema_200 < l1d.close then (pa.1 + 1, pa.2 ++ [Reason.macro1dUp])
        else (pa.1 - 1, pa.2 ++ [Reason.macro1dDown])
      | _, _ => p7
    Except.ok (longKnife symbol latest_4h latest_1h latest_1d ms df_4h p8.1 p8.2)

/-- LONG filter #3: the oversold gate (`RSI < 25` ⇒ +2, `< 30` ⇒ +1,
otherwise `return None` with nothing appended). -/
def longStage3 (symbol : String) (latest_4h : Candle)
    (latest_1h latest_1d : Option Candle) (df_4h : List Candle)
    (df_1d : Option (List Candle)) (ms : String)
    (score : ℤ) (reasons : List Reason) : Except String EvalOutcome :=
  let rsi_4h := latest_4h.rsi
  if rsi_4h < 25 then
    longStage4 symbol latest_4h latest_1h latest_1d df_4h df_1d ms (score + 2)
      (reasons ++ [Reason.rsiVeryOversold rsi_4h])
  else if rsi_4h < rsi_oversold then
    longStage4 symbol latest_4h latest_1h latest_1d df_4h df_1d ms (score + 1)
      (reasons ++ [Reason.rsiOversold rsi_4h])
  else Except.ok ⟨none, score, reasons⟩

/-- LONG filter #2: market structure over the trailing 10 rows ("downtrend"
⇒ `return None`, "uptrend" ⇒ +2, range ⇒ +1). -/
def longStage2 (symbol : String) (latest_4h : Candle)
    (latest_1h latest_1d : Option Candle) (df_4h : List Candle)
    (df_1d : Option (List Candle))
    (score : ℤ) (reasons : List Reason) : Except String EvalOutcome :=
  let market_structure := calculate_market_structure df_4h 10
  if market_structure = "downtrend" then
    Except.ok ⟨none, score, reasons ++ [Reason.rejDowntrend]⟩
  else if market_structure = "uptrend" then
    longStage3 symbol latest_4h latest_1h latest_1d df_4h df_1d
      market_structure (score + 2) (reasons ++ [Reason.structUpLong])
  else
    longStage3 symbol latest_4h latest_1h latest_1d df_4h df_1d
      market_structure (score + 1) (reasons ++ [Reason.structRangeLong])

/-- `_check_long_setup`: filter #1 (EMA200 trend veto, > 5% below ⇒
`return None` with the rejection reason alone and score still 0), then the
rest of the LONG pipeline. -/
def check_long_setup (symbol : String) (latest_4h : Candle)
    (latest_1h latest_1d : Option Candle) (df_4h : List Candle)
    (df_1d : Option (List Candle)) : Except String EvalOutcome :=
  let price := latest_4h.close
  let ema_200 := latest_4h.ema_200
  if price < ema_200 then
    let pct_below_ema := (ema_200 - price) / ema_200 * 100
    if pct_below_ema > 5 then
      Except.ok ⟨none, 0, [Reason.rejBelowEma pct_below_ema]⟩
    else
      longStage2 symbol latest_4h latest_1h latest_1d df_4h df_1d (-2)
        [Reason.warnBelowEma pct_below_ema]
  else
    longStage2 symbol latest_4h latest_1h latest_1d df_4h df_1d 3
      [Reason.aboveEma200]

/-- SHORT filters #10-#12 (mirror: +3% stop, `max(bb_middle, −6%)` target,
`(entry − tp) / (stop − entry)` ratio, R/R ≥ 1.5 gate). -/
def shortFinish (symbol : String) (latest_4h : Candle)
    (latest_1h latest_1d : Option Candle) (ms : String)
    (score : ℤ) (reasons : List Reason) : EvalOutcome :=
  if score < min_score_short then
    ⟨none, score, reasons ++ [Reason.lowScoreShort score]⟩
  else
    let entry_price := latest_4h.close
    let stop_loss := entry_price * (103 / 100)
    let bb_middle := latest_4h.bb_middle
    let take_profit := max bb_middle (entry_price * (94 / 100))
    let risk_reward := (entry_price - take_profit) / (stop_loss - entry_price)
    if risk_reward < 3 / 2 then
      ⟨none, score, reasons ++ [Reason.lowRRShort risk_reward]⟩
    else
      ⟨some { type := Direction.SHORT, symbol := symbol, timeframe := "4h",
              score := score, entry_price := entry_price,
              stop_loss := stop_loss, take_profit := take_profit,
              risk_reward := risk_reward, reasons := reasons,
              rsi_4h := latest_4h.rsi, rsi_1h := latest_1h.map Candle.rsi,
              rsi_1d := latest_1d.map Candle.rsi, market_structure := ms },
       score, reasons⟩

/-- SHORT filter #9: violent-rally guard over the trailing 5 closes. -/
def shortRally (symbol : String) (latest_4h : Candle)
    (latest_1h latest_1d : Option Candle) (ms : String) (df_4h : List Candle)
    (score : ℤ) (reasons : List Reason) : EvalOutcome :=
  if 5 ≤ df_4h.length then
    let avg_gain := avgChange (tailN 5 (df_4h.map Candle.close))
    if avg_gain > 2 then
      ⟨none, score, reasons ++ [Reason.rejViolentRally avg_gain]⟩
    else if avg_gain > 1 then
      shortFinish symbol latest_4h latest_1h latest_1d ms (score - 1)
        (reasons ++ [Reason.moderateGain avg_gain])
    else shortFinish symbol latest_4h latest_1h latest_1d ms score reasons
  else shortFinish symbol latest_4h latest_1h latest_1d ms score reasons

/-- SHORT filters #4-#8 (a missing `dist_bb_upper` key raises). -/
def shortStage4 (symbol : String) (latest_4h : Candle)
    (latest_1h latest_1d : Option Candle) (df_4h : List Candle)
    (df_1d : Option (List Candle)) (ms : String)
    (score : ℤ) (reasons : List Reason) : Except String EvalOutcome :=
  let p4 := if check_rsi_divergence df_4h "bearish" 20 then
      (score + 3, reasons ++ [Reason.divBearish]) else (score, reasons)
  let vol_ratio := calculate_directional_volume df_4h 10
  let p5 := if vol_ratio > 7 / 10 then
      (p4.1 - 2, p4.2 ++ [Reason.volBullishDominant vol_ratio])
    else if vol_ratio > 3 / 5 then
      (p4.1, p4.2 ++ [Reason.volSlightlyBullish vol_ratio])
    else (p4.1 + 1, p4.2 ++ [Reason.volBalancedRed vol_ratio])
  let p6 := if check_rejection_wick latest_4h "bearish" then
      (p5.1 + 2, p5.2 ++ [Reason.wickBearish]) else p5
  match latest_4h.dist_bb_upper with
  | none => Except.error "dist_bb_upper"
  | some dist_bb_upper =>
    let p7 := if dist_bb_upper < bb_threshold then
        (p6.1 + 2, p6.2 ++ [Reason.nearBBUpper dist_bb_upper]) else p6
    let p8 := match latest_1d, df_1d with
      | some l1d, some _ =>
        let pa := if l1d.rsi > 65 then
            (p7.1 + 2, p7.2 ++ [Reason.rsi1dOverbought l1d.rsi]) else p7
        if l1d.close < l1d.ema_200 then
          (pa.1 + 1, pa.2 ++ [Reason.macro1dDownShort])
        else (pa.1 - 1, pa.2 ++ [Reason.macro1dUpShort])
      | _, _ => p7
    Except.ok
      (shortRally symbol latest_4h latest_1h latest_1d ms df_4h p8.1 p8.2)

/-- SHORT filter #3: the overbought gate (`RSI > 75` ⇒ +2, `> 70` ⇒ +1,
otherwise `return None`). -/
def shortStage3 (symbol : String) (latest_4h : Candle)
    (latest_1h latest_1d : Option Candle) (df_4h : List Candle)
    (df_1d : Option (List Candle)) (ms : String)
    (score : ℤ) (reasons : List Reason) : Except String EvalOutcome :=
  let rsi_4h := latest_4h.rsi
  if rsi_4h > 75 then
    shortStage4 symbol latest_4h latest_1h latest_1d df_4h df_1d ms (score + 2)
      (reasons ++ [Reason.rsiVeryOverbought rsi_4h])
  else if rsi_4h > rsi_overbought then
    shortStage4 symbol latest_4h latest_1h latest_1d df_4h df_1d ms (score + 1)
      (reasons ++ [Reason.rsiOverbought rsi_4h])
  else Except.ok ⟨none, score, reasons⟩

/-- SHORT filter #2 ("uptrend" ⇒ `return None`, "downtrend" ⇒ +2,
range ⇒ +1). -/
def shortStage2 (symbol : String) (latest_4h : Candle)
    (latest_1h latest_1d : Option Candle) (df_4h : List Candle)
    (df_1d : Option (List Candle))
    (score : ℤ) (reasons : List Reason) : Except String EvalOutcome :=
  let market_structure := calculate_market_structure df_4h 10
  if market_structure = "uptrend" then
    Except.ok ⟨none, score, reasons ++ [Reason.rejUptrend]⟩
  else if market_structure = "downtrend" then
    shortStage3 symbol latest_4h latest_1h latest_1d df_4h df_1d
      market_structure (score + 2) (reasons ++ [Reason.structDownShort])
  else
    shortStage3 symbol latest_4h latest_1h latest_1d df_4h df_1d
      market_structure (score + 1) (reasons ++ [Reason.structRangeShort])

/-- `_check_short_setup`: filter #1 (EMA200 veto, > 5% above ⇒
`return None`), then the rest of the SHORT pipeline. -/
def check_short_setup (symbol : String) (latest_4h : Candle)
    (latest_1h latest_1d : Option Candle) (df_4h : List Candle)
    (df_1d : Option (List Candle)) : Except String EvalOutcome :=
  let price := latest_4h.close
  let ema_200 := latest_4h.ema_200
  if price > ema_200 then
    let pct_above_ema := (price - ema_200) / ema_200 * 100
    if pct_above_ema > 5 then
      Except.ok ⟨none, 0, [Reason.rejAboveEma pct_above_ema]⟩
    else
      shortStage2 symbol latest_4h latest_1h latest_1d df_4h df_1d (-2)
        [Reason.warnAboveEma pct_above_ema]
  else
    shortStage2 symbol latest_4h latest_1h latest_1d df_4h df_1d 3
      [Reason.belowEma200]

/-- `df.iloc[-1]` through an optional dataframe: `None` stays `None`, a
present but empty frame raises (`IndexError`). -/
def latestOf (d : Option (List Candle)) : Except String (Option Candle) :=
  match d with
  | none => Except.ok none
  | some df =>
    match df.getLast? with
    | none => Except.error "iloc"
    | some c => Except.ok (some c)

/-- `SignalDetector.detect_signals(symbol, data)`: no 4h frame ⇒ `[]`;
otherwise run the LONG and the SHORT evaluation on the same snapshot and
collect whatever each returned. -/
def detect_signals (symbol : String)
    (data_1h data_4h data_1d : Option (List Candle)) :
    Except String (List Signal) :=
  match data_4h with
  | none => Except.ok []
  | some df_4h =>
    match df_4h.getLast? with
    | none => Except.error "iloc"
    | some latest_4h =>
      match latestOf data_1h with
      | Except.error e => Except.error e
      | Except.ok latest_1h =>
        match latestOf data_1d with
        | Except.error e => Except.error e
        | Except.ok latest_1d =>
          match check_long_setup symbol latest_4h latest_1h latest_1d df_4h
              data_1d with
          | Except.error e => Except.error e
          | Except.ok lo =>
            match check_short_setup symbol latest_4h latest_1h latest_1d df_4h
                data_1d with
            | Except.error e => Except.error e
            | Except.ok so =>
              Except.ok
                ((match lo.result with
                  | some s => [s]
                  | none => []) ++
                 (match so.result with
                  | some s => [s]
                  | none => []))

/-! ## Dedupe ledger (src/main.py, scan_market lines 218-228) -/

/-- `self.sent_signals.get(signal_key, 0)`: the dict is an association list,
newest entry first, missing key ⇒ 0. -/
def ledger_get (led : List (String × ℚ)) (k : String) : ℚ :=
  match led.find? (fun p => p.1 == k) with
  | some p => p.2
  | none => 0

/-- One accepted signal reaching the dedupe check: `signal_key` and the
`time.time()` of the check (the source calls `time.time()` twice, at the
check and at the store; the store happens no earlier, so collapsing the two
into one instant only tightens the property being checked). Sends iff
`now - last_sent > 6 * 3600`, and then stores `now` under the key. -/
def scan_step (led : List (String × ℚ)) (ev : String × ℚ) :
    List (String × ℚ) × Bool :=
  if ev.2 - ledger_get led ev.1 > 6 * 3600 then ((ev.1, ev.2) :: led, true)
  else (led, false)

/-- The scan loop's dedupe behaviour over a whole run: fold `scan_step` over
the accepted signals in order, returning the subsequence actually forwarded
to the Notifier. -/
def scan_run (led : List (String × ℚ)) : List (String × ℚ) → List (String × ℚ)
  | [] => []
  | ev :: rest =>
    if ev.2 - ledger_get led ev.1 > 6 * 3600 then
      ev :: scan_run ((ev.1, ev.2) :: led) rest
    else scan_run led rest

/-! ## Helper lemmas -/

theorem tailN_length (n : ℕ) (l : List α) :
    (tailN n l).length = l.length - (l.length - n) := by
  simp [tailN]

theorem triplesOf_length (l : List ℚ) :
    (triplesOf l).length = l.length - 2 := by
  match l with
  | [] => rfl
  | [a] => rfl
  | [a, b] => rfl
  | a :: b :: c :: rest =>
    have ih := triplesOf_length (b :: c :: rest)
    simp [triplesOf, ih]

theorem triplesOf_chain {r : ℚ → ℚ → Prop} :
    ∀ {l : List ℚ}, List.Chain' r l →
      ∀ t ∈ triplesOf l, r t.1 t.2.1 ∧ r t.2.1 t.2.2
  | [], _, t, ht => by simp [triplesOf] at ht
  | [a], _, t, ht => by simp [triplesOf] at ht
  | [a, b], _, t, ht => by simp [triplesOf] at ht
  | a :: b :: c :: rest, h, t, ht => by
    rw [List.chain'_cons] at h
    rcases h with ⟨hab, hrest⟩
    have hbc : r b c := (List.chain'_cons.mp hrest).1
    simp only [triplesOf, List.mem_cons] at ht
    rcases ht with rfl | ht
    · exact ⟨hab, hbc⟩
    · exact triplesOf_chain hrest t ht

theorem higherCount_of_chain {l : List ℚ} (h : List.Chain' (· < ·) l) :
    higherCount l = l.length - 2 := by
  rw [higherCount, ← triplesOf_length l]
  apply List.countP_eq_length.mpr
  intro t ht
  have := triplesOf_chain h t ht
  simpa using this.symm

theorem lowerCount_of_chain {l : List ℚ} (h : List.Chain' (· < ·) l) :
    lowerCount l = 0 := by
  rw [lowerCount]
  apply List.countP_eq_zero.mpr
  intro t ht
  have hc := triplesOf_chain h t ht
  simp only [decide_eq_true_eq]
  rintro ⟨h1, h2⟩
  exact absurd hc.2 (not_lt.mpr h1.le)

theorem higherCount_of_chain_gt {l : List ℚ} (h : List.Chain' (· > ·) l) :
    higherCount l = 0 := by
  rw [higherCount]
  apply List.countP_eq_zero.mpr
  intro t ht
  have hc := triplesOf_chain h t ht
  simp only [decide_eq_true_eq]
  rintro ⟨h1, h2⟩
  exact absurd hc.2 (not_lt.mpr h1.le)

theorem lowerCount_of_chain_gt {l : List ℚ} (h : List.Chain' (· > ·) l) :
    lowerCount l = l.length - 2 := by
  rw [lowerCount, ← triplesOf_length l]
  apply List.countP_eq_length.mpr
  intro t ht
  have := triplesOf_chain h t ht
  simpa using this.symm

theorem longFinish_accept {symbol : String} {latest_4h : Candle}
    {latest_1h latest_1d : Option Candle} {ms : String} {score : ℤ}
    {reasons : List Reason} {s : Signal}
    (h : (longFinish symbol latest_4h latest_1h latest_1d ms score
      reasons).result = some s) :
    s.type = Direction.LONG ∧ s.entry_price = latest_4h.close ∧
    s.stop_loss = latest_4h.close * (97 / 100) ∧
    s.take_profit = min latest_4h.bb_middle (latest_4h.close * (106 / 100)) ∧
    s.risk_reward =
      (s.take_profit - s.entry_price) / (s.entry_price - s.stop_loss) ∧
    ¬ s.risk_reward < 3 / 2 ∧ s.rsi_4h = latest_4h.rsi := by
  simp only [longFinish] at h
  split at h
  · simp at h
  · split at h
    · simp at h
    · rename_i hrr
      simp only [Option.some.injEq] at h
      subst h
      refine ⟨rfl, rfl, rfl, rfl, rfl, ?_, rfl⟩
      simpa using hrr

theorem longKnife_accept {symbol : String} {latest_4h : Candle}
    {latest_1h latest_1d : Option Candle} {ms : String} {df_4h : List Candle}
    {score : ℤ} {reasons : List Reason} {s : Signal}
    (h : (longKnife symbol latest_4h latest_1h latest_1d ms df_4h score
      reasons).result = some s) :
    s.type = Direction.LONG ∧ s.entry_price = latest_4h.close ∧
    s.stop_loss = latest_4h.close * (97 / 100) ∧
    s.take_profit = min latest_4h.bb_middle (latest_4h.close * (106 / 100)) ∧
    s.risk_reward =
      (s.take_profit - s.entry_price) / (s.entry_price - s.stop_loss) ∧
    ¬ s.risk_reward < 3 / 2 ∧ s.rsi_4h = latest_4h.rsi := by
  simp only [longKnife] at h
  split at h
  · split at h
    · simp at h
    · split at h
      · exact longFinish_accept h
      · exact longFinish_accept h
  · exact longFinish_accept h

theorem longStage4_accept {symbol : String} {latest_4h : Candle}
    {latest_1h latest_1d : Option Candle} {df_4h : List Candle}
    {df_1d : Option (List Candle)} {ms : String} {score : ℤ}
    {reasons : List Reason} {o : EvalOutcome} {s : Signal}
    (h : longStage4 symbol latest_4h latest_1h latest_1d df_4h df_1d ms score
      reasons = Except.ok o) (ho : o.result = some s) :
    s.type = Direction.LONG ∧ s.entry_price = latest_4h.close ∧
    s.stop_loss = latest_4h.close * (97 / 100) ∧
    s.take_profit = min latest_4h.bb_middle (latest_4h.close * (106 / 100)) ∧
    s.risk_reward =
      (s.take_profit - s.entry_price) / (s.entry_price - s.stop_loss) ∧
    ¬ s.risk_reward < 3 / 2 ∧ s.rsi_4h = latest_4h.rsi := by
  simp only [longStage4] at h
  split at h
  · simp at h
  · simp only [Except.ok.injEq] at h
    subst h
    exact longKnife_accept ho

theorem longStage3_accept {symbol : String} {latest_4h : Candle}
    {latest_1h latest_1d : Option Candle} {df_4h : List Candle}
    {df_1d : Option (List Candle)} {ms : String} {score : ℤ}
    {reasons : List Reason} {o : EvalOutcome} {s : Signal}
    (h : longStage3 symbol latest_4h latest_1h latest_1d df_4h df_1d ms score
      reasons = Except.ok o) (ho : o.result = some s) :
    (s.type = Direction.LONG ∧ s.entry_price = latest_4h.close ∧
    s.stop_loss = latest_4h.close * (97 / 100) ∧
    s.take_profit = min latest_4h.bb_middle (latest_4h.close * (106 / 100)) ∧
    s.risk_reward =
      (s.take_profit - s.entry_price) / (s.entry_price - s.stop_loss) ∧
    ¬ s.risk_reward < 3 / 2 ∧ s.rsi_4h = latest_4h.rsi) ∧
    latest_4h.rsi < 30 := by
  simp only [longStage3] at h
  split at h
  · rename_i h25
    exact ⟨longStage4_accept h ho, by linarith⟩
  · split at h
    · rename_i _ h30
      exact ⟨longStage4_accept h ho, by simpa [rsi_oversold] using h30⟩
    · simp only [Except.ok.injEq] at h
      subst h
      simp at ho

theorem longStage2_accept {symbol : String} {latest_4h : Candle}
    {latest_1h latest_1d : Option Candle} {df_4h : List Candle}
    {df_1d : Option (List Candle)} {score : ℤ}
    {reasons : List Reason} {o : EvalOutcome} {s : Signal}
    (h : longStage2 symbol latest_4h latest_1h latest_1d df_4h df_1d score
      reasons = Except.ok o) (ho : o.result = some s) :
    (s.type = Direction.LONG ∧ s.entry_price = latest_4h.close ∧
    s.stop_loss = latest_4h.close * (97 / 100) ∧
    s.take_profit = min latest_4h.bb_middle (latest_4h.close * (106 / 100)) ∧
    s.risk_reward =
      (s.take_profit - s.entry_price) / (s.entry_price - s.stop_loss) ∧
    ¬ s.risk_reward < 3 / 2 ∧ s.rsi_4h = latest_4h.rsi) ∧
    latest_4h.rsi < 30 := by
  simp only [longStage2] at h
  split at h
  · simp only [Except.ok.injEq] at h
    subst h
    simp at ho
  · split at h
    · exact longStage3_accept h ho
    · exact longStage3_accept h ho

theorem long_accept {symbol : String} {latest_4h : Candle}
    {latest_1h latest_1d : Option Candle} {df_4h : List Candle}
    {df_1d : Option (List Candle)} {o : EvalOutcome} {s : Signal}
    (h : check_long_setup symbol latest_4h latest_1h latest_1d df_4h df_1d =
      Except.ok o) (ho : o.result = some s) :
    (s.type = Direction.LONG ∧ s.entry_price = latest_4h.close ∧
    s.stop_loss = latest_4h.close * (97 / 100) ∧
    s.take_profit = min latest_4h.bb_middle (latest_4h.close * (106 / 100)) ∧
    s.risk_reward =
      (s.take_profit - s.entry_price) / (s.entry_price - s.stop_loss) ∧
    ¬ s.risk_reward < 3 / 2 ∧ s.rsi_4h = latest_4h.rsi) ∧
    latest_4h.rsi < 30 := by
  simp only [check_long_setup] at h
  split at h
  · split at h
    · simp only [Except.ok.injEq] at h
      subst h
      simp at ho
    · exact longStage2_accept h ho
  · exact longStage2_accept h ho

theorem shortFinish_accept {symbol : String} {latest_4h : Candle}
    {latest_1h latest_1d : Option Candle} {ms : String} {score : ℤ}
    {reasons : List Reason} {s : Signal}
    (h : (shortFinish symbol latest_4h latest_1h latest_1d ms score
      reasons).result = some s) :
    s.type = Direction.SHORT ∧ s.entry_price = latest_4h.close ∧
    s.stop_loss = latest_4h.close * (103 / 100) ∧
    s.take_profit = max latest_4h.bb_middle (latest_4h.close * (94 / 100)) ∧
    s.risk_reward =
      (s.entry_price - s.take_profit) / (s.stop_loss - s.entry_price) ∧
    ¬ s.risk_reward < 3 / 2 ∧ s.rsi_4h = latest_4h.rsi := by
  simp only [shortFinish] at h
  split at h
  · simp at h
  · split at h
    · simp at h
    · rename_i hrr
      simp only [Option.some.injEq] at h
      subst h
      refine ⟨rfl, rfl, rfl, rfl, rfl, ?_, rfl⟩
      simpa using hrr

theorem shortRally_accept {symbol : String} {latest_4h : Candle}
    {latest_1h latest_1d : Option Candle} {ms : String} {df_4h : List Candle}
    {score : ℤ} {reasons : List Reason} {s : Signal}
    (h : (shortRally symbol latest_4h latest_1h latest_1d ms df_4h score
      reasons).result = some s) :
    s.type = Direction.SHORT ∧ s.entry_price = latest_4h.close ∧
    s.stop_loss = latest_4h.close * (103 / 100) ∧
    s.take_profit = max latest_4h.bb_middle (latest_4h.close * (94 / 100)) ∧
    s.risk_reward =
      (s.entry_price - s.take_profit) / (s.stop_loss - s.entry_price) ∧
    ¬ s.risk_reward < 3 / 2 ∧ s.rsi_4h = latest_4h.rsi := by
  simp only [shortRally] at h
  split at h
  · split at h
    · simp at h
    · split at h
      · exact shortFinish_accept h
      · exact shortFinish_accept h
  · exact shortFinish_accept h

theorem shortStage4_accept {symbol : String} {latest_4h : Candle}
    {latest_1h latest_1d : Option Candle} {df_4h : List Candle}
    {df_1d : Option (List Candle)} {ms : String} {score : ℤ}
    {reasons : List Reason} {o : EvalOutcome} {s : Signal}
    (h : shortStage4 symbol latest_4h latest_1h latest_1d df_4h df_1d ms score
      reasons = Except.ok o) (ho : o.result = some s) :
    s.type = Direction.SHORT ∧ s.entry_price = latest_4h.close ∧
    s.stop_loss = latest_4h.close * (103 / 100) ∧
    s.take_profit = max latest_4h.bb_middle (latest_4h.close * (94 / 100)) ∧
    s.risk_reward =
      (s.entry_price - s.take_profit) / (s.stop_loss - s.entry_price) ∧
    ¬ s.risk_reward < 3 / 2 ∧ s.rsi_4h = latest_4h.rsi := by
  simp only [shortStage4] at h
  split at h
  · simp at h
  · simp only [Except.ok.injEq] at h
    subst h
    exact shortRally_accept ho

theorem shortStage3_accept {symbol : String} {latest_4h : Candle}
    {latest_1h latest_1d : Option Candle} {df_4h : List Candle}
    {df_1d : Option (List Candle)} {ms : String} {score : ℤ}
    {reasons : List Reason} {o : EvalOutcome} {s : Signal}
    (h : shortStage3 symbol latest_4h latest_1h latest_1d df_4h df_1d ms score
      reasons = Except.ok o) (ho : o.result = some s) :
    (s.type = Direction.SHORT ∧ s.entry_price = latest_4h.close ∧
    s.stop_loss = latest_4h.close * (103 / 100) ∧
    s.take_profit = max latest_4h.bb_middle (latest_4h.close * (94 / 100)) ∧
    s.risk_reward =
      (s.entry_price - s.take_profit) / (s.stop_loss - s.entry_price) ∧
    ¬ s.risk_reward < 3 / 2 ∧ s.rsi_4h = latest_4h.rsi) ∧
    70 < latest_4h.rsi := by
  simp only [shortStage3] at h
  split at h
  · rename_i h75
    exact ⟨shortStage4_accept h ho, by linarith⟩
  · split at h
    · rename_i _ h70
      exact ⟨shortStage4_accept h ho, by simpa [rsi_overbought] using h70⟩
    · simp only [Except.ok.injEq] at h
      subst h
      simp at ho

theorem shortStage2_accept {symbol : String} {latest_4h : Candle}
    {latest_1h latest_1d : Option Candle} {df_4h : List Candle}
    {df_1d : Option (List Candle)} {score : ℤ}
    {reasons : List Reason} {o : EvalOutcome} {s : Signal}
    (h : shortStage2 symbol latest_4h latest_1h latest_1d df_4h df_1d score
      reasons = Except.ok o) (ho : o.result = some s) :
    (s.type = Direction.SHORT ∧ s.entry_price = latest_4h.close ∧
    s.stop_loss = latest_4h.close * (103 / 100) ∧
    s.take_profit = max latest_4h.bb_middle (latest_4h.close * (94 / 100)) ∧
    s.risk_reward =
      (s.entry_price - s.take_profit) / (s.stop_loss - s.entry_price) ∧
    ¬ s.risk_reward < 3 / 2 ∧ s.rsi_4h = latest_4h.rsi) ∧
    70 < latest_4h.rsi := by
  simp only [shortStage2] at h
  split at h
  · simp only [Except.ok.injEq] at h
    subst h
    simp at ho
  · split at h
    · exact shortStage3_accept h ho
    · exact shortStage3_accept h ho

theorem short_accept {symbol : String} {latest_4h : Candle}
    {latest_1h latest_1d : Option Candle} {df_4h : List Candle}
    {df_1d : Option (List Candle)} {o : EvalOutcome} {s : Signal}
    (h : check_short_setup symbol latest_4h latest_1h latest_1d df_4h df_1d =
      Except.ok o) (ho : o.result = some s) :
    (s.type = Direction.SHORT ∧ s.entry_price = latest_4h.close ∧
    s.stop_loss = latest_4h.close * (103 / 100) ∧
    s.take_profit = max latest_4h.bb_middle (latest_4h.close * (94 / 100)) ∧
    s.risk_reward =
      (s.entry_price - s.take_profit) / (s.stop_loss - s.entry_price) ∧
    ¬ s.risk_reward < 3 / 2 ∧ s.rsi_4h = latest_4h.rsi) ∧
    70 < latest_4h.rsi := by
  simp only [check_short_setup] at h
  split at h
  · split at h
    · simp only [Except.ok.injEq] at h
      subst h
      simp at ho
    · exact shortStage2_accept h ho
  · exact shortStage2_accept h ho

/-! ## Claim theorems -/

/-- C1: when the latest 4h close is more than 5% below the 4h EMA200, the
LONG evaluation returns no-signal immediately — for every value of the
later-read inputs (structure window, divergence window, volume, wick,
band distances, even absent, daily data, falling-knife window) the outcome
is the same `None`, the score is still 0 and the reasons list holds only
the EMA200 rejection; symmetrically the SHORT evaluation rejects
immediately when the close is more than 5% above EMA200. -/
theorem c1_ema200_veto_short_circuits (symbol : String) (latest_4h : Candle)
    (latest_1h latest_1d : Option Candle) (df_4h : List Candle)
    (df_1d : Option (List Candle)) (hema : 0 < latest_4h.ema_200) :
    (latest_4h.close < latest_4h.ema_200 * (95 / 100) →
      check_long_setup symbol latest_4h latest_1h latest_1d df_4h df_1d =
        Except.ok ⟨none, 0, [Reason.rejBelowEma
          ((latest_4h.ema_200 - latest_4h.close) / latest_4h.ema_200 * 100)]⟩) ∧
    (latest_4h.ema_200 * (105 / 100) < latest_4h.close →
      check_short_setup symbol latest_4h latest_1h latest_1d df_4h df_1d =
        Except.ok ⟨none, 0, [Reason.rejAboveEma
          ((latest_4h.close - latest_4h.ema_200) / latest_4h.ema_200 * 100)]⟩) := by
  constructor
  · intro h
    have hlt : latest_4h.close < latest_4h.ema_200 := by nlinarith
    have h5 : (latest_4h.ema_200 - latest_4h.close) / latest_4h.ema_200 * 100
        > 5 := by
      rw [gt_iff_lt, div_mul_eq_mul_div, lt_div_iff₀ hema]
      nlinarith
    simp only [check_long_setup, if_pos hlt, if_pos h5]
  · intro h
    have hgt : latest_4h.close > latest_4h.ema_200 := by nlinarith
    have h5 : (latest_4h.close - latest_4h.ema_200) / latest_4h.ema_200 * 100
        > 5 := by
      rw [gt_iff_lt, div_mul_eq_mul_div, lt_div_iff₀ hema]
      nlinarith
    simp only [check_short_setup, if_pos hgt, if_pos h5]

/-- A latest-4h row 20% below its EMA200, with both distance columns absent
(as `calculate_indicators` leaves them) and an empty structure window. -/
def vetoLong4h : Candle := ⟨100, 101, 99, 80, 1, 20, 100, 105, none, none⟩

/-- A latest-4h row 20% above its EMA200, both distance columns absent. -/
def vetoShort4h : Candle := ⟨100, 121, 99, 120, 1, 80, 100, 105, none, none⟩

theorem c1_ema200_veto_short_circuits_witness :
    check_long_setup "BTC/USDT" vetoLong4h none none [] none =
      Except.ok ⟨none, 0, [Reason.rejBelowEma
        ((vetoLong4h.ema_200 - vetoLong4h.close) / vetoLong4h.ema_200 * 100)]⟩ ∧
    check_short_setup "BTC/USDT" vetoShort4h none none [] none =
      Except.ok ⟨none, 0, [Reason.rejAboveEma
        ((vetoShort4h.close - vetoShort4h.ema_200) / vetoShort4h.ema_200 * 100)]⟩ :=
  ⟨(c1_ema200_veto_short_circuits "BTC/USDT" vetoLong4h none none [] none
      (by decide)).1 (by decide),
   (c1_ema200_veto_short_circuits "BTC/USDT" vetoShort4h none none [] none
      (by decide)).2 (by decide)⟩

/-- Score accumulated by LONG filters #1-#2 when neither vetoes:
−2 below EMA200 (within 5%) / +3 above, plus +2 uptrend / +1 range. -/
def longPrefixScore (latest_4h : Candle) (df_4h : List Candle) : ℤ :=
  (if latest_4h.close < latest_4h.ema_200 then -2 else 3) +
  (if calculate_market_structure df_4h 10 = "uptrend" then 2 else 1)

/-- Reasons accumulated by LONG filters #1-#2 when neither vetoes. -/
def longPrefixReasons (latest_4h : Candle) (df_4h : List Candle) :
    List Reason :=
  (if latest_4h.close < latest_4h.ema_200 then
    [Reason.warnBelowEma
      ((latest_4h.ema_200 - latest_4h.close) / latest_4h.ema_200 * 100)]
  else [Reason.aboveEma200]) ++
  (if calculate_market_structure df_4h 10 = "uptrend" then
    [Reason.structUpLong]
  else [Reason.structRangeLong])

theorem longPrefixRun {symbol : String} {latest_4h : Candle}
    {latest_1h latest_1d : Option Candle} {df_4h : List Candle}
    {df_1d : Option (List Candle)}
    (hema : latest_4h.close < latest_4h.ema_200 →
      (latest_4h.ema_200 - latest_4h.close) / latest_4h.ema_200 * 100 ≤ 5)
    (hms : calculate_market_structure df_4h 10 ≠ "downtrend") :
    check_long_setup symbol latest_4h latest_1h latest_1d df_4h df_1d =
      longStage3 symbol latest_4h latest_1h latest_1d df_4h df_1d
        (calculate_market_structure df_4h 10) (longPrefixScore latest_4h df_4h)
        (longPrefixReasons latest_4h df_4h) := by
  by_cases hlt : latest_4h.close < latest_4h.ema_200
  · have hp : ¬ ((latest_4h.ema_200 - latest_4h.close) / latest_4h.ema_200 *
        100 > 5) := not_lt.mpr (hema hlt)
    rw [check_long_setup]
    simp only [if_pos hlt, if_neg hp, longStage2, if_neg hms]
    by_cases hup : calculate_market_structure df_4h 10 = "uptrend"
    · simp [if_pos hup, longPrefixScore, longPrefixReasons, hlt, hup]
    · simp [if_neg hup, longPrefixScore, longPrefixReasons, hlt, hup]
  · rw [check_long_setup]
    simp only [if_neg hlt, longStage2, if_neg hms]
    by_cases hup : calculate_market_structure df_4h 10 = "uptrend"
    · simp [if_pos hup, longPrefixScore, longPrefixReasons, hlt, hup]
    · simp [if_neg hup, longPrefixScore, longPrefixReasons, hlt, hup]

/-- C6: once the EMA200 and structure vetoes pass, the momentum gate of the
LONG evaluation is exact: RSI(4h) ≥ 30 ends the whole evaluation with
no-signal at once (the outcome carries only the filter #1-#2 score and
reasons, whatever the later-read inputs hold); RSI < 25 hands the rest of
the pipeline the accumulated score plus 2; 25 ≤ RSI < 30 hands it the
accumulated score plus 1. -/
theorem c6_momentum_gate (symbol : String) (latest_4h : Candle)
    (latest_1h latest_1d : Option Candle) (df_4h : List Candle)
    (df_1d : Option (List Candle))
    (hema : latest_4h.close < latest_4h.ema_200 →
      (latest_4h.ema_200 - latest_4h.close) / latest_4h.ema_200 * 100 ≤ 5)
    (hms : calculate_market_structure df_4h 10 ≠ "downtrend") :
    (¬ latest_4h.rsi < 30 →
      check_long_setup symbol latest_4h latest_1h latest_1d df_4h df_1d =
        Except.ok ⟨none, longPrefixScore latest_4h df_4h,
          longPrefixReasons latest_4h df_4h⟩) ∧
    (latest_4h.rsi < 25 →
      check_long_setup symbol latest_4h latest_1h latest_1d df_4h df_1d =
        longStage4 symbol latest_4h latest_1h latest_1d df_4h df_1d
          (calculate_market_structure df_4h 10)
          (longPrefixScore latest_4h df_4h + 2)
          (longPrefixReasons latest_4h df_4h ++
            [Reason.rsiVeryOversold latest_4h.rsi])) ∧
    (25 ≤ latest_4h.rsi → latest_4h.rsi < 30 →
      check_long_setup symbol latest_4h latest_1h latest_1d df_4h df_1d =
        longStage4 symbol latest_4h latest_1h latest_1d df_4h df_1d
          (calculate_market_structure df_4h 10)
          (longPrefixScore latest_4h df_4h + 1)
          (longPrefixReasons latest_4h df_4h ++
            [Reason.rsiOversold latest_4h.rsi])) := by
  rw [longPrefixRun hema hms]
  refine ⟨fun h30 => ?_, fun h25 => ?_, fun h25 h30 => ?_⟩
  · have h25 : ¬ latest_4h.rsi < 25 := fun h => h30 (by linarith)
    rw [longStage3]
    simp only [if_neg h25, rsi_oversold, if_neg h30]
  · rw [longStage3]
    simp only [if_pos h25]
  · rw [longStage3]
    simp only [if_neg (not_lt.mpr h25), rsi_oversold, if_pos h30]

/-- A latest-4h row above its EMA200 with RSI 50 (not oversold). -/
def gate4h : Candle := ⟨100, 101, 99, 100, 1, 50, 90, 105, none, none⟩

theorem c6_momentum_gate_witness :
    check_long_setup "BTC/USDT" gate4h none none [] none =
      Except.ok ⟨none, 4, [Reason.aboveEma200, Reason.structRangeLong]⟩ := by
  have h := (c6_momentum_gate "BTC/USDT" gate4h none none [] none
    (by decide) (by decide)).1 (by decide)
  rw [show longPrefixScore gate4h [] = 4 from by decide,
    show longPrefixReasons gate4h [] =
      [Reason.aboveEma200, Reason.structRangeLong] from by decide] at h
  exact h

/-- C7: structure classification depends only on the trailing 10 highs and
lows: strictly increasing highs and lows give "uptrend", strictly
decreasing give "downtrend", and whenever neither count comparison of the
source holds (ties and mixed pivots included) the result is "range". -/
theorem c7_structure_classification :
    (∀ df : List Candle, 10 ≤ df.length →
      List.Chain' (· < ·) (tailN 10 (df.map Candle.high)) →
      List.Chain' (· < ·) (tailN 10 (df.map Candle.low)) →
      calculate_market_structure df 10 = "uptrend") ∧
    (∀ df : List Candle, 10 ≤ df.length →
      List.Chain' (· > ·) (tailN 10 (df.map Candle.high)) →
      List.Chain' (· > ·) (tailN 10 (df.map Candle.low)) →
      calculate_market_structure df 10 = "downtrend") ∧
    (∀ df : List Candle,
      ¬ (higherCount (tailN 10 (df.map Candle.high)) >
          lowerCount (tailN 10 (df.map Candle.high)) ∧
        higherCount (tailN 10 (df.map Candle.low)) >
          lowerCount (tailN 10 (df.map Candle.low))) →
      ¬ (lowerCount (tailN 10 (df.map Candle.high)) >
          higherCount (tailN 10 (df.map Candle.high)) ∧
        lowerCount (tailN 10 (df.map Candle.low)) >
          higherCount (tailN 10 (df.map Candle.low))) →
      calculate_market_structure df 10 = "range") := by
  refine ⟨fun df hlen hh hl => ?_, fun df hlen hh hl => ?_, fun df h1 h2 => ?_⟩
  · have lh : (tailN 10 (df.map Candle.high)).length = 10 := by
      simp only [tailN, List.length_drop, List.length_map]; omega
    have ll : (tailN 10 (df.map Candle.low)).length = 10 := by
      simp only [tailN, List.length_drop, List.length_map]; omega
    simp only [calculate_market_structure]
    rw [if_pos]
    constructor
    · rw [higherCount_of_chain hh, lowerCount_of_chain hh, lh]; omega
    · rw [higherCount_of_chain hl, lowerCount_of_chain hl, ll]; omega
  · have lh : (tailN 10 (df.map Candle.high)).length = 10 := by
      simp only [tailN, List.length_drop, List.length_map]; omega
    have ll : (tailN 10 (df.map Candle.low)).length = 10 := by
      simp only [tailN, List.length_drop, List.length_map]; omega
    simp only [calculate_market_structure]
    rw [if_neg, if_pos]
    · constructor
      · rw [higherCount_of_chain_gt hh, lowerCount_of_chain_gt hh, lh]; omega
      · rw [higherCount_of_chain_gt hl, lowerCount_of_chain_gt hl, ll]; omega
    · rw [higherCount_of_chain_gt hh, lowerCount_of_chain_gt hh,
        higherCount_of_chain_gt hl, lowerCount_of_chain_gt hl, lh, ll]
      omega
  · simp only [calculate_market_structure]
    rw [if_neg h1, if_neg h2]

/-- A strictly rising 10-candle window (higher highs and higher lows). -/
def upDf : List Candle :=
  (List.range 10).map (fun j =>
    ⟨4 + (j : ℚ), 10 + (j : ℚ), 1 + (j : ℚ), 5 + (j : ℚ), 1, 20, 90, 105,
      none, none⟩)

/-- A strictly falling 10-candle window (lower highs and lower lows). -/
def downDf : List Candle :=
  (List.range 10).map (fun j =>
    ⟨26 - (j : ℚ), 30 - (j : ℚ), 20 - (j : ℚ), 25 - (j : ℚ), 1, 80, 110, 0,
      none, none⟩)

/-- An alternating 10-candle window: no pivot triple is monotone. -/
def altDf : List Candle :=
  (List.range 10).map (fun j =>
    ⟨0, if j % 2 = 0 then 10 else 11, if j % 2 = 0 then 1 else 2, 5, 1, 50,
      90, 105, none, none⟩)

theorem c7_structure_classification_witness :
    calculate_market_structure upDf 10 = "uptrend" ∧
    calculate_market_structure downDf 10 = "downtrend" ∧
    calculate_market_structure altDf 10 = "range" :=
  ⟨c7_structure_classification.1 upDf (by decide)
     (by norm_num [upDf, tailN, List.range, List.range.loop, List.chain'_cons])
     (by norm_num [upDf, tailN, List.range, List.range.loop, List.chain'_cons]),
   c7_structure_classification.2.1 downDf (by decide)
     (by norm_num [downDf, tailN, List.range, List.range.loop, List.chain'_cons])
     (by norm_num [downDf, tailN, List.range, List.range.loop, List.chain'_cons]),
   c7_structure_classification.2.2 altDf (by decide) (by decide)⟩

/-- C10: whenever the trailing divergence window (lookback 20, shorter for a
short series) holds fewer than 10 records, `_check_rsi_divergence` returns
`False` for every divergence type — also when the short window does exhibit
two qualifying pivots with a divergence. -/
theorem c10_divergence_short_window (df : List Candle)
    (divergence_type : String) (h : df.length < 10) :
    check_rsi_divergence df divergence_type 20 = false := by
  have hl : (tailN 20 (df.map Candle.close)).length < 10 := by
    simp only [tailN, List.length_drop, List.length_map]; omega
  simp only [check_rsi_divergence]
  rw [if_pos hl]

/-- A bare row carrying only a close and an RSI value. -/
def divCandle (c r : ℚ) : Candle := ⟨0, 0, 0, c, 0, r, 0, 0, none, none⟩

/-- Nine records whose two price lows (1 then 1/2) fall while RSI rises
(10 then 20): a textbook bullish divergence, one record short of the
window minimum. -/
def shortDivDf : List Candle :=
  [divCandle 5 0, divCandle 4 0, divCandle 1 10, divCandle 4 0,
   divCandle 5 0, divCandle (1 / 2) 20, divCandle 4 0, divCandle 5 0,
   divCandle 5 0]

theorem c10_divergence_short_window_witness :
    check_rsi_divergence shortDivDf "bullish" 20 = false ∧
    check_rsi_divergence (divCandle 6 0 :: shortDivDf) "bullish" 20 = true :=
  ⟨c10_divergence_short_window shortDivDf "bullish" (by decide), by decide⟩

/-- A latest-4h row exactly as `calculate_indicators` hands it over (both
`dist_bb_*` keys absent), positioned to pass the EMA200, structure and
momentum gates. -/
def noDist4h : Candle := ⟨99, 101, 98, 100, 1, 20, 90, 105, none, none⟩

/-- Ten identical rows: a "range" structure window. -/
def noDistDf : List Candle := List.replicate 10 noDist4h

/-- C5 (code bug): on a series enriched by the repository's own
`calculate_indicators` — which never attaches the `dist_bb_lower` /
`dist_bb_upper` columns the scorer reads — the LONG evaluation reaches
filter #7 and raises `KeyError('dist_bb_lower')` instead of returning a
no-signal value, contradicting the never-raises contract. -/
theorem c5_scorer_keyerror :
    check_long_setup "BTC/USDT" noDist4h none none noDistDf none =
      Except.error "dist_bb_lower" := by rfl

/-- C2: every accepted evaluation's trade plan has entry = latest 4h close,
stop = entry × 0.97 (LONG) / × 1.03 (SHORT), target = the closer-to-entry
of the Bollinger middle band and entry ± 6% (min for LONG, max for SHORT),
risk_reward = |target − entry| / |entry − stop|, and risk_reward ≥ 1.5;
moreover an evaluation whose would-be plan has that absolute ratio below
1.5 never produces a signal. -/
theorem c2_trade_plan (symbol : String) (latest_4h : Candle)
    (latest_1h latest_1d : Option Candle) (df_4h : List Candle)
    (df_1d : Option (List Candle)) (hpos : 0 < latest_4h.close) :
    (∀ o s, check_long_setup symbol latest_4h latest_1h latest_1d df_4h df_1d
        = Except.ok o → o.result = some s →
      s.entry_price = latest_4h.close ∧
      s.stop_loss = s.entry_price * (97 / 100) ∧
      s.take_profit = min latest_4h.bb_middle (s.entry_price * (106 / 100)) ∧
      s.risk_reward =
        |s.take_profit - s.entry_price| / |s.entry_price - s.stop_loss| ∧
      3 / 2 ≤ s.risk_reward) ∧
    (∀ o, check_long_setup symbol latest_4h latest_1h latest_1d df_4h df_1d
        = Except.ok o →
      |min latest_4h.bb_middle (latest_4h.close * (106 / 100)) -
          latest_4h.close| /
        |latest_4h.close - latest_4h.close * (97 / 100)| < 3 / 2 →
      o.result = none) ∧
    (∀ o s, check_short_setup symbol latest_4h latest_1h latest_1d df_4h df_1d
        = Except.ok o → o.result = some s →
      s.entry_price = latest_4h.close ∧
      s.stop_loss = s.entry_price * (103 / 100) ∧
      s.take_profit = max latest_4h.bb_middle (s.entry_price * (94 / 100)) ∧
      s.risk_reward =
        |s.take_profit - s.entry_price| / |s.entry_price - s.stop_loss| ∧
      3 / 2 ≤ s.risk_reward) ∧
    (∀ o, check_short_setup symbol latest_4h latest_1h latest_1d df_4h df_1d
        = Except.ok o →
      |max latest_4h.bb_middle (latest_4h.close * (94 / 100)) -
          latest_4h.close| /
        |latest_4h.close - latest_4h.close * (103 / 100)| < 3 / 2 →
      o.result = none) := by
  have keyL : ∀ o s, check_long_setup symbol latest_4h latest_1h latest_1d
      df_4h df_1d = Except.ok o → o.result = some s →
      s.entry_price = latest_4h.close ∧
      s.stop_loss = s.entry_price * (97 / 100) ∧
      s.take_profit = min latest_4h.bb_middle (s.entry_price * (106 / 100)) ∧
      s.risk_reward =
        |s.take_profit - s.entry_price| / |s.entry_price - s.stop_loss| ∧
      3 / 2 ≤ s.risk_reward := by
    intro o s h ho
    obtain ⟨⟨_, he, hst, htp, hrr, hnlt, _⟩, _⟩ := long_accept h ho
    have hrr' : 3 / 2 ≤ s.risk_reward := not_lt.mp hnlt
    have hd : s.entry_price - s.stop_loss = latest_4h.close * (3 / 100) := by
      rw [hst, he]; ring
    have hden : 0 < s.entry_price - s.stop_loss := by
      rw [hd]; exact mul_pos hpos (by norm_num)
    have hnum : s.take_profit - s.entry_price =
        s.risk_reward * (s.entry_price - s.stop_loss) := by
      rw [hrr, div_mul_cancel₀ _ hden.ne']
    have hnumpos : 0 < s.take_profit - s.entry_price := by
      rw [hnum]
      exact mul_pos (lt_of_lt_of_le (by norm_num) hrr') hden
    refine ⟨he, by rw [he]; exact hst, by rw [he]; exact htp, ?_, hrr'⟩
    rw [abs_of_pos hnumpos, abs_of_pos hden]
    exact hrr
  have keyS : ∀ o s, check_short_setup symbol latest_4h latest_1h latest_1d
      df_4h df_1d = Except.ok o → o.result = some s →
      s.entry_price = latest_4h.close ∧
      s.stop_loss = s.entry_price * (103 / 100) ∧
      s.take_profit = max latest_4h.bb_middle (s.entry_price * (94 / 100)) ∧
      s.risk_reward =
        |s.take_profit - s.entry_price| / |s.entry_price - s.stop_loss| ∧
      3 / 2 ≤ s.risk_reward := by
    intro o s h ho
    obtain ⟨⟨_, he, hst, htp, hrr, hnlt, _⟩, _⟩ := short_accept h ho
    have hrr' : 3 / 2 ≤ s.risk_reward := not_lt.mp hnlt
    have hd : s.stop_loss - s.entry_price = latest_4h.close * (3 / 100) := by
      rw [hst, he]; ring
    have hden : 0 < s.stop_loss - s.entry_price := by
      rw [hd]; exact mul_pos hpos (by norm_num)
    have hnum : s.entry_price - s.take_profit =
        s.risk_reward * (s.stop_loss - s.entry_price) := by
      rw [hrr, div_mul_cancel₀ _ hden.ne']
    have hnumpos : 0 < s.entry_price - s.take_profit := by
      rw [hnum]
      exact mul_pos (lt_of_lt_of_le (by norm_num) hrr') hden
    refine ⟨he, by rw [he]; exact hst, by rw [he]; exact htp, ?_, hrr'⟩
    rw [abs_sub_comm s.take_profit s.entry_price,
      abs_sub_comm s.entry_price s.stop_loss,
      abs_of_pos hnumpos, abs_of_pos hden]
    exact hrr
  refine ⟨keyL, ?_, keyS, ?_⟩
  · intro o h habs
    by_contra hne
    obtain ⟨s, hs⟩ := Option.ne_none_iff_exists'.mp hne
    obtain ⟨he, hst, htp, hrr, hge⟩ := keyL o s h hs
    rw [hrr, htp, he] at hge
    rw [hst, he] at hge
    exact absurd habs (not_lt.mpr hge)
  · intro o h habs
    by_contra hne
    obtain ⟨s, hs⟩ := Option.ne_none_iff_exists'.mp hne
    obtain ⟨he, hst, htp, hrr, hge⟩ := keyS o s h hs
    rw [hrr, htp, he] at hge
    rw [hst, he] at hge
    exact absurd habs (not_lt.mpr hge)

/-- A latest-4h row that the LONG evaluation accepts (close 100, EMA200 90,
RSI 20, BB middle 105, 1% from the lower band). -/
def accLong4h : Candle := ⟨100, 101, 99, 100, 1, 20, 90, 105, some 1, none⟩

/-- A rising all-green 10-candle 4h window for the accepted LONG run. -/
def accLongDf : List Candle :=
  (List.range 10).map (fun j =>
    ⟨4 + (j : ℚ), 10 + (j : ℚ), 1 + (j : ℚ), 5 + (j : ℚ), 1, 20, 90, 105,
      none, none⟩)

/-- The reasons the accepted LONG run accumulates. -/
def accLongReasons : List Reason :=
  [Reason.aboveEma200, Reason.structUpLong, Reason.rsiVeryOversold 20,
   Reason.volBalancedGreen 1, Reason.nearBBLower 1]

/-- The signal the accepted LONG run returns. -/
def accLongSig : Signal :=
  ⟨Direction.LONG, "SIG", "4h", 10, 100, 97, 105, 5 / 3, accLongReasons, 20,
    none, none, "uptrend"⟩

/-- A latest-4h row that the SHORT evaluation accepts (close 100, EMA200
110, RSI 80, BB middle 94.5, 1% from the upper band). -/
def accShort4h : Candle :=
  ⟨100, 101, 99, 100, 1, 80, 110, 189 / 2, none, some 1⟩

/-- A falling all-red 10-candle 4h window for the accepted SHORT run. -/
def accShortDf : List Candle :=
  (List.range 10).map (fun j =>
    ⟨26 - (j : ℚ), 30 - (j : ℚ), 20 - (j : ℚ), 25 - (j : ℚ), 1, 80, 110,
      189 / 2, none, none⟩)

/-- The reasons the accepted SHORT run accumulates. -/
def accShortReasons : List Reason :=
  [Reason.belowEma200, Reason.structDownShort, Reason.rsiVeryOverbought 80,
   Reason.volBalancedRed 0, Reason.nearBBUpper 1]

/-- The signal the accepted SHORT run returns. -/
def accShortSig : Signal :=
  ⟨Direction.SHORT, "SIG", "4h", 10, 100, 103, 189 / 2, 11 / 6,
    accShortReasons, 80, none, none, "downtrend"⟩

theorem c2_trade_plan_witness :
    (accLongSig.entry_price = accLong4h.close ∧
     accLongSig.stop_loss = accLongSig.entry_price * (97 / 100) ∧
     accLongSig.take_profit =
       min accLong4h.bb_middle (accLongSig.entry_price * (106 / 100)) ∧
     accLongSig.risk_reward =
       |accLongSig.take_profit - accLongSig.entry_price| /
         |accLongSig.entry_price - accLongSig.stop_loss| ∧
     3 / 2 ≤ accLongSig.risk_reward) ∧
    (accShortSig.entry_price = accShort4h.close ∧
     accShortSig.stop_loss = accShortSig.entry_price * (103 / 100) ∧
     accShortSig.take_profit =
       max accShort4h.bb_middle (accShortSig.entry_price * (94 / 100)) ∧
     accShortSig.risk_reward =
       |accShortSig.take_profit - accShortSig.entry_price| /
         |accShortSig.entry_price - accShortSig.stop_loss| ∧
     3 / 2 ≤ accShortSig.risk_reward) :=
  ⟨(c2_trade_plan "SIG" accLong4h none none accLongDf none (by decide)).1
     ⟨some accLongSig, 10, accLongReasons⟩ accLongSig (by rfl) rfl,
   (c2_trade_plan "SIG" accShort4h none none accShortDf none (by decide)).2.2.1
     ⟨some accShortSig, 10, accShortReasons⟩ accShortSig (by rfl) rfl⟩

/-- C8: one snapshot never yields both a LONG and a SHORT signal — the LONG
path only accepts with RSI(4h) < 30 while the SHORT path only accepts with
RSI(4h) > 70, and both read the same latest 4h row. -/
theorem c8_directions_mutually_exclusive (symbol : String)
    (data_1h data_4h data_1d : Option (List Candle)) (sigs : List Signal)
    (h : detect_signals symbol data_1h data_4h data_1d = Except.ok sigs) :
    ¬ ((∃ s ∈ sigs, s.type = Direction.LONG) ∧
       (∃ s ∈ sigs, s.type = Direction.SHORT)) := by
  rintro ⟨⟨sL, hmemL, htL⟩, ⟨sS, hmemS, htS⟩⟩
  rw [detect_signals.eq_def] at h
  cases data_4h with
  | none =>
    simp only [Except.ok.injEq] at h
    subst h
    simp at hmemL
  | some df_4h =>
    dsimp only [] at h
    cases hlast : df_4h.getLast? with
    | none => rw [hlast] at h; simp at h
    | some latest_4h =>
      rw [hlast] at h
      dsimp only [] at h
      cases h1h : latestOf data_1h with
      | error e => rw [h1h] at h; simp at h
      | ok latest_1h =>
        rw [h1h] at h
        dsimp only [] at h
        cases h1d : latestOf data_1d with
        | error e => rw [h1d] at h; simp at h
        | ok latest_1d =>
          rw [h1d] at h
          dsimp only [] at h
          cases hlo : check_long_setup symbol latest_4h latest_1h latest_1d
              df_4h data_1d with
          | error e => rw [hlo] at h; simp at h
          | ok lo =>
            rw [hlo] at h
            dsimp only [] at h
            cases hso : check_short_setup symbol latest_4h latest_1h latest_1d
                df_4h data_1d with
            | error e => rw [hso] at h; simp at h
            | ok so =>
              rw [hso] at h
              dsimp only [] at h
              simp only [Except.ok.injEq] at h
              subst h
              cases hlr : lo.result with
              | none =>
                cases hsr : so.result with
                | none =>
                  rw [hlr, hsr] at hmemL
                  simp at hmemL
                | some b =>
                  rw [hlr, hsr] at hmemL
                  simp only [List.nil_append, List.mem_singleton] at hmemL
                  subst hmemL
                  have hb := (short_accept hso hsr).1.1
                  rw [hb] at htL
                  exact absurd htL (by simp)
              | some a =>
                cases hsr : so.result with
                | none =>
                  rw [hlr, hsr] at hmemS
                  simp only [List.append_nil, List.mem_singleton] at hmemS
                  subst hmemS
                  have ha := (long_accept hlo hlr).1.1
                  rw [ha] at htS
                  exact absurd htS (by simp)
                | some b =>
                  rw [hlr, hsr] at hmemL hmemS
                  have hLrsi : latest_4h.rsi < 30 := by
                    rcases List.mem_append.mp hmemL with hm | hm <;>
                      simp only [List.mem_singleton] at hm <;> subst hm
                    · exact (long_accept hlo hlr).2
                    · have hb := (short_accept hso hsr).1.1
                      rw [hb] at htL
                      exact absurd htL (by simp)
                  have hSrsi : 70 < latest_4h.rsi := by
                    rcases List.mem_append.mp hmemS with hm | hm <;>
                      simp only [List.mem_singleton] at hm <;> subst hm
                    · have ha := (long_accept hlo hlr).1.1
                      rw [ha] at htS
                      exact absurd htS (by simp)
                    · exact (short_accept hso hsr).2
                  linarith

/-- Ten identical rows with RSI 50: both directions reject (LONG at the
momentum gate, SHORT at the EMA200 veto), so the snapshot yields `[]`. -/
def neutralDf : List Candle := List.replicate 10 gate4h

theorem c8_directions_mutually_exclusive_witness :
    ¬ ((∃ s ∈ ([] : List Signal), s.type = Direction.LONG) ∧
       (∃ s ∈ ([] : List Signal), s.type = Direction.SHORT)) :=
  c8_directions_mutually_exclusive "BTC/USDT" none (some neutralDf) none []
    (by rfl)

theorem gain_nonneg (closes : List ℚ) (i : ℕ) : 0 ≤ gain closes i := by
  rw [gain]
  split
  · exact le_refl 0
  · split
    · rename_i hd
      exact le_of_lt hd
    · exact le_refl 0

theorem loss_nonneg (closes : List ℚ) (i : ℕ) : 0 ≤ loss closes i := by
  rw [loss]
  split
  · exact le_refl 0
  · split
    · rename_i hd
      simp only [Left.nonneg_neg_iff]
      exact le_of_lt hd
    · exact le_refl 0

theorem avg_gain_nonneg {closes : List ℚ} {i : ℕ} {g : ℚ}
    (h : avg_gain closes i = some g) : 0 ≤ g := by
  rw [avg_gain] at h
  split at h
  · simp only [Option.some.injEq] at h
    subst h
    apply div_nonneg _ (by norm_num)
    apply List.sum_nonneg
    intro x hx
    obtain ⟨k, _, rfl⟩ := List.mem_map.mp hx
    exact gain_nonneg closes (i - k)
  · simp at h

theorem avg_loss_nonneg {closes : List ℚ} {i : ℕ} {l : ℚ}
    (h : avg_loss closes i = some l) : 0 ≤ l := by
  rw [avg_loss] at h
  split at h
  · simp only [Option.some.injEq] at h
    subst h
    apply div_nonneg _ (by norm_num)
    apply List.sum_nonneg
    intro x hx
    obtain ⟨k, _, rfl⟩ := List.mem_map.mp hx
    exact loss_nonneg closes (i - k)
  · simp at h

/-- C3 as amended: with the trailing 14-period averages defined, a zero
average loss with a nonzero average gain gives RSI exactly 100 (the +inf
branch of the float division); a zero average loss with a zero average gain
gives an undefined RSI (the 0/0 NaN is propagated, not guarded to 100);
and every defined RSI value lies in [0, 100]. -/
theorem c3_rsi_zero_loss (closes : List ℚ) (i : ℕ) (g l : ℚ)
    (hg : avg_gain closes i = some g) (hl : avg_loss closes i = some l) :
    (l = 0 → g ≠ 0 → rsiAt closes i = some 100) ∧
    (l = 0 → g = 0 → rsiAt closes i = none) ∧
    (∀ x, rsiAt closes i = some x → 0 ≤ x ∧ x ≤ 100) := by
  have hg0 : 0 ≤ g := avg_gain_nonneg hg
  have hl0 : 0 ≤ l := avg_loss_nonneg hl
  refine ⟨fun hlz hgz => ?_, fun hlz hgz => ?_, fun x hx => ?_⟩
  · rw [rsiAt, hg, hl]
    simp only [if_pos hlz, if_neg hgz]
  · rw [rsiAt, hg, hl]
    simp only [if_pos hlz, if_pos hgz]
  · rw [rsiAt, hg, hl] at hx
    by_cases hlz : l = 0
    · by_cases hgz : g = 0
      · simp [if_pos hlz, if_pos hgz] at hx
      · simp only [if_pos hlz, if_neg hgz, Option.some.injEq] at hx
        subst hx
        norm_num
    · simp only [if_neg hlz, Option.some.injEq] at hx
      subst hx
      have hlpos : 0 < l := lt_of_le_of_ne hl0 (Ne.symm hlz)
      have hq : 0 ≤ g / l := div_nonneg hg0 hlpos.le
      have h1 : (1 : ℚ) ≤ 1 + g / l := by linarith
      have hpos : 0 < 100 / (1 + g / l) := div_pos (by norm_num) (by linarith)
      have hle : 100 / (1 + g / l) ≤ 100 := by
        calc 100 / (1 + g / l) ≤ 100 / 1 := by
              apply div_le_div_of_nonneg_left (by norm_num) (by norm_num) h1
          _ = 100 := by norm_num
      constructor <;> linarith

/-- Fifteen strictly rising closes: zero average loss, positive average
gain. -/
def risingCloses : List ℚ :=
  [0, 1, 2, 3, 4, 5, 6, 7, 8, 9, 10, 11, 12, 13, 14]

theorem c3_rsi_zero_loss_witness :
    rsiAt risingCloses 14 = some 100 :=
  (c3_rsi_zero_loss risingCloses 14 1 0 (by rfl) (by rfl)).1 rfl (by norm_num)

/-- C3's original wording fails on the code: a constant series (15 equal
closes) has zero average loss at index 14, yet the code's RSI there is the
propagated 0/0 NaN, not the claimed 100. -/
theorem c3_rsi_zero_loss_counterexample :
    avg_loss (List.replicate 15 1) 14 = some 0 ∧
    rsiAt (List.replicate 15 1) 14 ≠ some 100 := by
  constructor
  · rfl
  · intro hx
    rw [show rsiAt (List.replicate 15 1) 14 = none from rfl] at hx
    exact Option.noConfusion hx

theorem ewmFrom_length (alpha prev : ℚ) (closes : List ℚ) :
    (ewmFrom alpha prev closes).length = closes.length := by
  induction closes generalizing prev with
  | nil => rfl
  | cons x rest ih => simp [ewmFrom, ih]

/-- C4 as amended: `ewm(span, adjust=False)` attaches a value at every index
of every nonempty series — the column has the same length as the input, its
first cell is the first close (the seed), and in particular the latest
`ema_200` cell exists however short the series, a value partially computed
from fewer points than the span. -/
theorem c4_ema_defined_from_first (span : ℕ) (closes : List ℚ)
    (h : closes ≠ []) :
    (ewm span closes).length = closes.length ∧
    (ewm span closes).head? = closes.head? ∧
    (ema200At closes).isSome = true := by
  match closes with
  | [] => exact absurd rfl h
  | c :: rest =>
    refine ⟨by simp [ewm, ewmFrom_length], by simp [ewm], ?_⟩
    rw [ema200At, List.getLast?_isSome]
    simp [ewm]

theorem c4_ema_defined_from_first_witness :
    (ewm 200 [(5 : ℚ)]).length = 1 ∧ (ewm 200 [(5 : ℚ)]).head? = some 5 ∧
    (ema200At [(5 : ℚ)]).isSome = true :=
  c4_ema_defined_from_first 200 [(5 : ℚ)] (by simp)

/-- C4's original wording fails on the code: a one-element series (fewer
than 200 observations) still gets a defined `ema_200` value — the seed
itself — rather than an undefined cell. -/
theorem c4_ema_defined_from_first_counterexample :
    ([(5 : ℚ)].length < 200) ∧ ema200At [(5 : ℚ)] = some 5 ∧
    ema200At [(5 : ℚ)] ≠ none := by
  refine ⟨by norm_num, by rfl, ?_⟩
  intro hx
  rw [show ema200At [(5 : ℚ)] = some 5 from rfl] at hx
  exact Option.noConfusion hx

theorem ledger_get_cons (k : String) (t : ℚ) (led : List (String × ℚ))
    (k' : String) :
    ledger_get ((k, t) :: led) k' = if k = k' then t else ledger_get led k' := by
  by_cases hk : k = k'
  · simp [ledger_get, List.find?_cons, hk]
  · have hbeq : ((k, t).1 == k') = false := by simpa using hk
    simp [ledger_get, List.find?_cons, hbeq, hk]

theorem scan_run_gap : ∀ (events led : List (String × ℚ)),
    ∀ e ∈ scan_run led events, 6 * 3600 < e.2 - ledger_get led e.1 := by
  intro events
  induction events with
  | nil => intro led e he; simp [scan_run] at he
  | cons ev rest ih =>
    intro led e he
    rw [scan_run] at he
    split at he
    · rename_i hsend
      rcases List.mem_cons.mp he with rfl | hm
      · exact hsend
      · have hrec := ih ((ev.1, ev.2) :: led) e hm
        have hmono : ledger_get led e.1 ≤ ledger_get ((ev.1, ev.2) :: led) e.1
            := by
          rw [ledger_get_cons]
          split
          · rename_i hk
            rw [← hk]
            linarith
          · exact le_refl _
        linarith
    · exact ih led e he

/-- C9: across a whole run of the scan loop (the fold of the dedupe check
over every accepted signal in order, starting from the empty ledger), two
forwarded signals with the same dedupe key are always more than 6 hours
(21600 seconds) apart; a signal is forwarded only when the stored timestamp
(0 when no entry exists) is more than 6 hours before now, and forwarding
overwrites the key's entry with the current time. -/
theorem c9_dedupe_six_hours :
    (∀ events : List (String × ℚ),
      List.Pairwise (fun a b => a.1 = b.1 → 6 * 3600 < b.2 - a.2)
        (scan_run [] events)) ∧
    (∀ led ev, (scan_step led ev).2 = true ↔
      6 * 3600 < ev.2 - ledger_get led ev.1) ∧
    (∀ led ev, (scan_step led ev).2 = true →
      ledger_get (scan_step led ev).1 ev.1 = ev.2) := by
  refine ⟨?_, ?_, ?_⟩
  · have main : ∀ (events led : List (String × ℚ)),
        List.Pairwise (fun a b => a.1 = b.1 → 6 * 3600 < b.2 - a.2)
          (scan_run led events) := by
      intro events
      induction events with
      | nil => intro led; simp [scan_run]
      | cons ev rest ih =>
        intro led
        rw [scan_run]
        split
        · refine List.pairwise_cons.mpr ⟨?_, ih _⟩
          intro b hb hkey
          have := scan_run_gap rest ((ev.1, ev.2) :: led) b hb
          rw [← hkey, ledger_get_cons, if_pos rfl] at this
          exact this
        · exact ih led
    exact fun events => main events []
  · intro led ev
    rw [scan_step]
    split
    · rename_i hc
      simp only [true_iff]
      exact hc
    · rename_i hc
      simpa using hc
  · intro led ev h
    rw [scan_step] at h ⊢
    split at h
    · rename_i hc
      rw [if_pos hc, ledger_get_cons, if_pos rfl]
    · simp at h

theorem c9_dedupe_six_hours_witness :
    ledger_get (scan_step [] ("BTC/USDT_LONG_4h", 30000)).1
      "BTC/USDT_LONG_4h" = 30000 :=
  c9_dedupe_six_hours.2.2 [] ("BTC/USDT_LONG_4h", 30000) (by norm_num [scan_step, ledger_get])
